import Mathlib

/-!
Verification development for the Backhaul tunnel transport layer.

The definitions below are a shallow embedding of three Go source files:
  - cmd/defaults.go                      (configuration default injection)
  - internal/server/transport/tcpmux.go  (TCPMUX server transport)
  - internal/client/transport/ws.go      (WebSocket client transport)

Pure functions are translated to Lean functions; event-driven code is
translated to step functions over explicit state, with I/O results
(accept/dial/read/write success or failure, random indices) supplied as
oracle inputs.  Go `int` fields are `Int`; ports and byte values are `Nat`
with explicit `% 2^16` where the Go code truncates to `uint16`.
-/

namespace Backhaul

/-! ## Configuration (cmd/defaults.go) -/

/-- One half (server or client) of the TOML configuration.  Only fields
touched by `applyDefaults` are modelled; all are as in the Go config. -/
structure EndpointConfig where
  Transport : String
  Token : String
  ChannelSize : Int
  LogLevel : String
  RetryInterval : Int
  ConnectionPool : Int
  MuxSession : Int
  Keepalive : Int
  MuxVersion : Int
  MaxFrameSize : Int
  MaxReceiveBuffer : Int
  MaxStreamBuffer : Int
  SnifferLog : String
  Heartbeat : Int
deriving Repr, DecidableEq

/-- Whole configuration: a server half and a client half. -/
structure Config where
  Server : EndpointConfig
  Client : EndpointConfig
deriving Repr, DecidableEq

/-- Modelled from the spec: the transport-kind constants of the `config`
package (that package is not under src/); the spec lists the four kinds
TCP, TCPMUX, WS, WSS. -/
def validTransportKinds : List String := ["tcp", "tcpmux", "ws", "wss"]

def defaultTransportKind : String := "tcp"
def defaultToken : String := "sahmadiut"
def defaultChannelSize : Int := 2048
def defaultRetryInterval : Int := 1
def defaultConnectionPool : Int := 8
def defaultLogLevel : String := "info"
def defaultMuxSession : Int := 1
def defaultKeepAlive : Int := 20
def defaultMuxVersion : Int := 1
def defaultMaxFrameSize : Int := 32768
def defaultMaxReceiveBuffer : Int := 4194304
def defaultMaxStreamBuffer : Int := 65536
def defaultSnifferLog : String := "backhaul.json"
def defaultHeartbeat : Int := 20

/-- The transport `switch` of `applyDefaults`: a valid value is kept,
the empty string and invalid values both fall back to the default. -/
def applyTransportDefault (t : String) : String :=
  if validTransportKinds.contains t then t
  else if t = "" then defaultTransportKind
  else defaultTransportKind

/-- Modelled from the logrus library (external dependency): `ParseLevel`
succeeds exactly on the documented level names, case-insensitively. -/
def logrusLevelOk (s : String) : Bool :=
  ["panic", "fatal", "error", "warn", "warning", "info", "debug", "trace"].contains s.toLower

/-- Embedding of `applyDefaults` (cmd/defaults.go).  Every rule of the Go
function is translated field by field; server-only rules (ChannelSize,
ConnectionPool, Heartbeat) and the client-only rule (RetryInterval) touch
only the half the Go code touches. -/
def applyDefaults (cfg : Config) : Config :=
  { Server :=
    { Transport := applyTransportDefault cfg.Server.Transport
      Token := if cfg.Server.Token = "" then defaultToken else cfg.Server.Token
      ChannelSize := if cfg.Server.ChannelSize ≤ 0 then defaultChannelSize else cfg.Server.ChannelSize
      LogLevel := if logrusLevelOk cfg.Server.LogLevel then cfg.Server.LogLevel else defaultLogLevel
      RetryInterval := cfg.Server.RetryInterval
      ConnectionPool := if cfg.Server.ConnectionPool ≤ 0 then defaultConnectionPool else cfg.Server.ConnectionPool
      MuxSession := if cfg.Server.MuxSession ≤ 0 then defaultMuxSession else cfg.Server.MuxSession
      Keepalive := if cfg.Server.Keepalive ≤ 0 then defaultKeepAlive else cfg.Server.Keepalive
      MuxVersion := if cfg.Server.MuxVersion ≤ 0 ∨ 2 < cfg.Server.MuxVersion then defaultMuxVersion else cfg.Server.MuxVersion
      MaxFrameSize := if cfg.Server.MaxFrameSize ≤ 0 then defaultMaxFrameSize else cfg.Server.MaxFrameSize
      MaxReceiveBuffer := if cfg.Server.MaxReceiveBuffer ≤ 0 then defaultMaxReceiveBuffer else cfg.Server.MaxReceiveBuffer
      MaxStreamBuffer := if cfg.Server.MaxStreamBuffer ≤ 0 then defaultMaxStreamBuffer else cfg.Server.MaxStreamBuffer
      SnifferLog := if cfg.Server.SnifferLog = "" then defaultSnifferLog else cfg.Server.SnifferLog
      Heartbeat := if cfg.Server.Heartbeat < 1 then defaultHeartbeat else cfg.Server.Heartbeat }
    Client :=
    { Transport := applyTransportDefault cfg.Client.Transport
      Token := if cfg.Client.Token = "" then defaultToken else cfg.Client.Token
      ChannelSize := cfg.Client.ChannelSize
      LogLevel := if logrusLevelOk cfg.Client.LogLevel then cfg.Client.LogLevel else defaultLogLevel
      RetryInterval := if cfg.Client.RetryInterval ≤ 0 then defaultRetryInterval else cfg.Client.RetryInterval
      ConnectionPool := cfg.Client.ConnectionPool
      MuxSession := if cfg.Client.MuxSession ≤ 0 then defaultMuxSession else cfg.Client.MuxSession
      Keepalive := if cfg.Client.Keepalive ≤ 0 then defaultKeepAlive else cfg.Client.Keepalive
      MuxVersion := if cfg.Client.MuxVersion ≤ 0 ∨ 2 < cfg.Client.MuxVersion then defaultMuxVersion else cfg.Client.MuxVersion
      MaxFrameSize := if cfg.Client.MaxFrameSize ≤ 0 then defaultMaxFrameSize else cfg.Client.MaxFrameSize
      MaxReceiveBuffer := if cfg.Client.MaxReceiveBuffer ≤ 0 then defaultMaxReceiveBuffer else cfg.Client.MaxReceiveBuffer
      MaxStreamBuffer := if cfg.Client.MaxStreamBuffer ≤ 0 then defaultMaxStreamBuffer else cfg.Client.MaxStreamBuffer
      SnifferLog := if cfg.Client.SnifferLog = "" then defaultSnifferLog else cfg.Client.SnifferLog
      Heartbeat := cfg.Client.Heartbeat } }

/-! ## Port-mapping parser (tcpmux.go, portConfigReader)

The Go code matches each entry against the anchored regular expression
  (?:\[(\d+):(\d+)\](?:=(\d+))?)|(?:(\d+)(?::(\d+))?(?:=(\d+))?)
collects the non-empty capture groups in order, converts them with
`strconv.Atoi`, and interprets them.  Because every group is a digit run
delimited by the literal characters `[ ] : =`, greedy matching is
deterministic and the regex is embedded as a direct character parser that
returns the list of captured integers. -/

/-- Longest digit prefix of a character list, and the rest. -/
def takeDigits (cs : List Char) : List Char × List Char :=
  cs.span Char.isDigit

/-- Decimal value of a digit run, as `strconv.Atoi` computes it (the Go
code ignores the error return; all claims use values within range). -/
def atoi (cs : List Char) : Nat :=
  cs.foldl (fun a c => a * 10 + (c.toNat - 48)) 0

/-- Match of the first regex alternative `\[(\d+):(\d+)\](?:=(\d+))?`
against a whole string: capture groups 1, 2 and optionally 3. -/
def matchBracketAlt (cs : List Char) : Option (Nat × Nat × Option Nat) :=
  match cs with
  | '[' :: r0 =>
    match takeDigits r0 with
    | (d1, ':' :: r1) =>
      if d1 = [] then none else
      match takeDigits r1 with
      | (d2, ']' :: r2) =>
        if d2 = [] then none else
        match r2 with
        | [] => some (atoi d1, atoi d2, none)
        | '=' :: r3 =>
          match takeDigits r3 with
          | (d3, []) => if d3 = [] then none else some (atoi d1, atoi d2, some (atoi d3))
          | _ => none
        | _ => none
      | _ => none
    | _ => none
  | _ => none

/-- Match of the second regex alternative `(\d+)(?::(\d+))?(?:=(\d+))?`
against a whole string: capture groups 4 and optionally 5 and 6. -/
def matchPlainAlt (cs : List Char) : Option (Nat × Option Nat × Option Nat) :=
  match takeDigits cs with
  | (d1, rest) =>
    if d1 = [] then none else
    match rest with
    | [] => some (atoi d1, none, none)
    | ':' :: r1 =>
      match takeDigits r1 with
      | (d2, []) => if d2 = [] then none else some (atoi d1, some (atoi d2), none)
      | (d2, '=' :: r2) =>
        if d2 = [] then none else
        match takeDigits r2 with
        | (d3, []) => if d3 = [] then none else some (atoi d1, some (atoi d2), some (atoi d3))
        | _ => none
      | _ => none
    | '=' :: r1 =>
      match takeDigits r1 with
      | (d3, []) => if d3 = [] then none else some (atoi d1, none, some (atoi d3))
      | _ => none
    | _ => none

/-- The non-empty capture groups of the port-mapping regex, in group
order — exactly the `validGroups` slice the Go code builds.  `none`
means the regex does not match (`re.MatchString` is false). -/
def regexValidGroups (cs : List Char) : Option (List Nat) :=
  match matchBracketAlt cs with
  | some (a, b, none) => some [a, b]
  | some (a, b, some c) => some [a, b, c]
  | none =>
    match matchPlainAlt cs with
    | some (a, none, none) => some [a]
    | some (a, some b, none) => some [a, b]
    | some (a, none, some c) => some [a, c]
    | some (a, some b, some c) => some [a, b, c]
    | none => none

/-- The `startRange` the Go code reads: `validGroups[0]`. -/
def startRangeOf (vg : List Nat) : Nat := vg.headD 0

/-- The `endRange` the Go code computes: it starts at `startRange` and is
overwritten by `validGroups[1]` when (`=` present and 3 groups) or
(no `=` and 2 groups). -/
def endRangeOf (vg : List Nat) (hasEq : Bool) : Nat :=
  if hasEq then
    if vg.length = 3 then vg.getD 1 0 else startRangeOf vg
  else
    if vg.length = 2 then vg.getD 1 0 else startRangeOf vg

/-- The `remotePort` the Go code computes: `-1` (here `none`) without `=`,
otherwise the last valid group. -/
def remotePortOf (vg : List Nat) (hasEq : Bool) : Option Nat :=
  if hasEq then some (vg.getLastD 0) else none

/-- Result of processing one port-mapping entry.  `logger.Fatalf`
terminates the process, so both fatal branches end the program. -/
inductive EntryResult where
  | fatalInvalid
  | fatalRange (startRange endRange : Nat)
  | listeners (l : List (Nat × Nat))
deriving Repr, DecidableEq

/-- Embedding of one iteration of `portConfigReader`'s loop: parse the
entry, then spawn `localListener(":"+i, i or remotePort)` for every `i`
in `[startRange, endRange]`.  A listener is the pair
(local port, remote port handed to `localListener`). -/
def portConfigEntry (s : String) : EntryResult :=
  match regexValidGroups s.data with
  | none => .fatalInvalid
  | some vg =>
    let hasEq := s.data.contains '='
    let startRange := startRangeOf vg
    let endRange := endRangeOf vg hasEq
    let remotePort := remotePortOf vg hasEq
    if startRange > endRange then .fatalRange startRange endRange
    else .listeners ((List.range' startRange (endRange + 1 - startRange)).map
      (fun i => (i, remotePort.getD i)))

/-- Embedding of `portConfigReader` over the whole `Ports` list: the
spawned listeners of every entry, or `none` when some entry is fatal. -/
def portConfigReader : List String → Option (List (Nat × Nat))
  | [] => some []
  | s :: rest =>
    match portConfigEntry s with
    | .listeners l => (portConfigReader rest).map (fun r => l ++ r)
    | _ => none

/-! ## Wire format: 2-byte big-endian port header (utils SendBinaryInt /
binary.BigEndian.Uint16) -/

/-- Go `uint16(n)` conversion: truncation modulo 2^16. -/
def uint16OfNat (n : Nat) : Nat := n % 65536

/-- Embedding of `utils.SendBinaryInt`: the two big-endian bytes written
for a `uint16` value. -/
def sendBinaryIntBytes (v : Nat) : List Nat := [v / 256 % 256, v % 256]

/-- Embedding of `binary.BigEndian.Uint16` on a 2-byte buffer, as the
client's `handleWSSession` reads the port header. -/
def bigEndianUint16 (bs : List Nat) : Nat := bs.getD 0 0 * 256 + bs.getD 1 0

/-- The port header bytes `handleMUXSession` writes for a configured
remote port: `SendBinaryInt(stream, uint16(remotePort))`. -/
def muxPortHeader (remotePort : Nat) : List Nat :=
  sendBinaryIntBytes (uint16OfNat remotePort)

/-! ## WebSocket client (ws.go) -/

/-- Control-channel signal constants set in `NewWSClient`:
`heartbeatSig = "0"`, `chanSignal = "1"`. -/
def heartbeatSig : String := "0"

def chanSignal : String := "1"

/-- The `timeout` field set in `NewWSClient`: `5 * time.Second`.  It is
used both as websocket handshake timeout and as the TCP dial timeout in
`tcpDialer`. -/
def wsClientTimeoutSecs : Nat := 5

/-- One read result on the control channel, as seen by
`channelListener`: either a message or a read error. -/
inductive ChannelRead where
  | msg (s : String)
  | readErr
deriving Repr, DecidableEq

/-- Observable effect of one `channelListener` loop iteration. -/
structure ListenerEffect where
  dials : Nat
  restarts : Nat
  keepLooping : Bool
deriving Repr, DecidableEq

/-- Embedding of the body of `channelListener`'s loop: a read error
restarts and returns; `chanSignal` spawns one `tunnelDialer`;
`heartbeatSig` only logs; anything else restarts and returns. -/
def channelListenerStep : ChannelRead → ListenerEffect
  | .readErr => { dials := 0, restarts := 1, keepLooping := false }
  | .msg m =>
    if m = chanSignal then { dials := 1, restarts := 0, keepLooping := true }
    else if m = heartbeatSig then { dials := 0, restarts := 0, keepLooping := true }
    else { dials := 0, restarts := 1, keepLooping := false }

/-- Accumulated effect of `channelListener` over a finite trace of reads:
the loop consumes reads until an iteration stops the loop (the context
path is the empty trace). -/
def channelListenerRun : List ChannelRead → ListenerEffect
  | [] => { dials := 0, restarts := 0, keepLooping := true }
  | r :: rest =>
    let e := channelListenerStep r
    if e.keepLooping then
      let e2 := channelListenerRun rest
      { dials := e.dials + e2.dials, restarts := e.restarts + e2.restarts,
        keepLooping := e2.keepLooping }
    else e

/-- Embedding of the local-target resolution in `localDialer`:
`Forwarder[int(port)]` when the key exists, else `"127.0.0.1:<port>"`.
The Go map is modelled as an association list with unique keys. -/
def resolveLocalAddr (forwarder : List (Nat × String)) (port : Nat) : String :=
  match forwarder.lookup port with
  | some a => a
  | none => "127.0.0.1:" ++ toString port

/-- Options of the `net.Dialer` built in `tcpDialer`: `Timeout` is the
transport's `timeout` field, `KeepAlive` comes from the config. -/
structure DialerOpts where
  timeoutSecs : Nat
  keepAliveSecs : Nat
deriving Repr, DecidableEq

/-- The dialer options `tcpDialer` uses on the WS client, given the
configured keep-alive. -/
def wsTcpDialerOpts (keepAliveSecs : Nat) : DialerOpts :=
  { timeoutSecs := wsClientTimeoutSecs, keepAliveSecs := keepAliveSecs }

/-- Observable outcome of `localDialer` for one tunnel stream. -/
structure LocalDialOutcome where
  target : String
  tunnelClosed : Bool
  restarted : Bool
  relayStarted : Bool
deriving Repr, DecidableEq

/-- Embedding of `localDialer` (ws.go): resolve the target, dial it; on
failure close the tunnel connection and return (no restart), on success
hand both ends to the relay. `dialOk` is the oracle for the TCP dial. -/
def localDialerRun (forwarder : List (Nat × String)) (port : Nat)
    (dialOk : Bool) : LocalDialOutcome :=
  let target := resolveLocalAddr forwarder port
  if dialOk then
    { target := target, tunnelClosed := false, restarted := false, relayStarted := true }
  else
    { target := target, tunnelClosed := true, restarted := false, relayStarted := false }

/-- The port the client obtains in `handleWSSession` from the 2-byte
header the server wrote for configured remote port `r`. -/
def clientPortOf (remotePort : Nat) : Nat :=
  bigEndianUint16 (muxPortHeader remotePort)

/-! ## TCPMUX server (tcpmux.go) -/

/-- The `timeout` field set in `NewTcpMuxServer`: `2 * time.Second`.  It
bounds the enqueue wait in `localListener`. -/
def muxServerTimeoutSecs : Nat := 2

/-- Which smux constructor a session was created with.  `smux.Client`
builds a client-side session, `smux.Server` a server-side one. -/
inductive SmuxRole where
  | client
  | server
deriving Repr, DecidableEq

/-- The smux constructor `acceptStreamConn` calls on each accepted tunnel
socket: the code invokes `smux.Client(conn, &config)`. -/
def acceptStreamSessionRole : SmuxRole := SmuxRole.client

/-- A session installed in the pool: its smux role and whether its first
stream passed token authentication. -/
structure PoolSession where
  role : SmuxRole
  authenticated : Bool
deriving Repr, DecidableEq

/-- One iteration's worth of oracle input for `acceptStreamConn`: all the
I/O outcomes of one pass through its loop body. -/
inductive AcceptEvent where
  | acceptErr
  | nonTCP
  | smuxErr
  | acceptStreamErr
  | tokenRecvErr
  | token (t : String) (sendOk : Bool)
deriving Repr, DecidableEq

/-- Observable effects of one pass through `acceptStreamConn`'s loop. -/
structure AuthOutcome where
  response : Option String
  installed : Bool
  sessionClosed : Bool
  sleepSecs : Nat
deriving Repr, DecidableEq

/-- Embedding of one pass through `acceptStreamConn`'s loop body for the
events from smux-session creation onward.  On a received token: equal to
the config token → send `"ok"` (install only if that send succeeds, else
close and continue); different → send `"error"`, close the session and
sleep 2 seconds before the next accept. -/
def authStep (cfgToken : String) : AcceptEvent → AuthOutcome
  | .acceptErr => { response := none, installed := false, sessionClosed := false, sleepSecs := 0 }
  | .nonTCP => { response := none, installed := false, sessionClosed := false, sleepSecs := 0 }
  | .smuxErr => { response := none, installed := false, sessionClosed := false, sleepSecs := 0 }
  | .acceptStreamErr => { response := none, installed := false, sessionClosed := true, sleepSecs := 0 }
  | .tokenRecvErr => { response := none, installed := false, sessionClosed := true, sleepSecs := 0 }
  | .token t sendOk =>
    if t = cfgToken then
      if sendOk then
        { response := some "ok", installed := true, sessionClosed := false, sleepSecs := 0 }
      else
        { response := some "ok", installed := false, sessionClosed := true, sleepSecs := 0 }
    else
      { response := some "error", installed := false, sessionClosed := true, sleepSecs := 2 }

/-- The pool slot after one pass: `s.smuxSession[id] = session` happens
exactly when the pass installs; otherwise the slot is untouched. -/
def slotAfter (cfgToken : String) (e : AcceptEvent) (prev : Option PoolSession) :
    Option PoolSession :=
  if (authStep cfgToken e).installed then
    some { role := acceptStreamSessionRole, authenticated := true }
  else prev

/-- Embedding of `acceptStreamConn` for goroutine `id`: loop over the
event trace until a pass installs a session (then `wg.Done()` and the
goroutine parks on the context); `none` when the trace ends without an
install. -/
def acceptStreamRun (cfgToken : String) : List AcceptEvent → Option PoolSession
  | [] => none
  | e :: rest =>
    if (authStep cfgToken e).installed then
      some { role := acceptStreamSessionRole, authenticated := true }
    else acceptStreamRun cfgToken rest

/-- Embedding of `TunnelListener`'s setup phase: one `acceptStreamConn`
goroutine per pool slot `id = 0 .. MuxSession-1`, each given its own
event trace; the pool after all goroutines have called `wg.Done()`. -/
def tunnelListenerSetup (cfgToken : String) (traces : List (List AcceptEvent)) :
    List (Option PoolSession) :=
  traces.map (acceptStreamRun cfgToken)

/-- State of one mux pool slot as `handleMUXSession` observes it,
together with the oracles for its two stream operations. -/
structure MuxSlot where
  closed : Bool
  openStreamOk : Bool
  sendPortOk : Bool
deriving Repr, DecidableEq

/-- Observable outcome of one `handleMUXSession` dispatch. -/
structure DispatchOutcome where
  incomingClosed : Bool
  restarted : Bool
  dispatcherStops : Bool
  header : Option (List Nat)
deriving Repr, DecidableEq

/-- Embedding of one dispatch of `handleMUXSession`: `idx` is the value
of `rand.Intn(config.MuxSession)` (any value in `[0, MuxSession)` is a
possible outcome).  Nil or closed slot → close incoming, restart, stop.
`OpenStream` failure → close incoming, restart, stop.  Port-header write
failure → close incoming, continue.  Otherwise hand the stream and the
2-byte header to the relay. -/
def handleMUXDispatch (pool : List (Option MuxSlot)) (idx : Nat)
    (remotePort : Nat) : DispatchOutcome :=
  match pool.getD idx none with
  | none => { incomingClosed := true, restarted := true, dispatcherStops := true, header := none }
  | some slot =>
    if slot.closed then
      { incomingClosed := true, restarted := true, dispatcherStops := true, header := none }
    else if slot.openStreamOk = false then
      { incomingClosed := true, restarted := true, dispatcherStops := true, header := none }
    else if slot.sendPortOk = false then
      { incomingClosed := true, restarted := false, dispatcherStops := false, header := none }
    else
      { incomingClosed := false, restarted := false, dispatcherStops := false,
        header := some (muxPortHeader remotePort) }

/-! ## Accept queue (tcpmux.go, localListener) -/

/-- Embedding of the enqueue `select` in `localListener`: the accept
channel has capacity `ChannelSize`; with no concurrent drain the send
succeeds exactly when the buffer has room, otherwise after
`muxServerTimeoutSecs` the connection is closed and discarded.  Returns
the queue afterwards and whether the connection was enqueued. -/
def offerConn (channelSize : Nat) (q : List Nat) (conn : Nat) :
    List Nat × Bool :=
  if q.length < channelSize then (q ++ [conn], true) else (q, false)

/-- Accepting a whole burst of connections with no drain in between:
the final queue and the list of dropped (closed) connections. -/
def offerAll (channelSize : Nat) (conns : List Nat) : List Nat × List Nat :=
  conns.foldl
    (fun acc conn =>
      let r := offerConn channelSize acc.1 conn
      if r.2 then (r.1, acc.2) else (r.1, acc.2 ++ [conn]))
    ([], [])

/-! ## Restart gates (tcpmux.go and ws.go, Restart) -/

/-- Actions a restart performs, in program order. -/
inductive RestartAct where
  | cancelScope
  | sleep (secs : Nat)
  | newScope
  | resetState
  | spawnTop
deriving Repr, DecidableEq

/-- Server-instance state touched by `Restart` (tcpmux.go). -/
structure ServerState where
  restartLockHeld : Bool
  scopeGen : Nat
  smuxSession : List (Option PoolSession)
  monitorGen : Nat
deriving Repr, DecidableEq

/-- Embedding of the server `Restart`: `TryLock` fails → log and return
with nothing changed; otherwise cancel the scope, sleep 2 s, make a new
scope, re-make the session pool (`make([]*smux.Session, MuxSession)`,
all nil) and a fresh usage monitor, and spawn `TunnelListener`. -/
def serverRestart (muxSession : Nat) (st : ServerState) :
    ServerState × List RestartAct :=
  if st.restartLockHeld then (st, [])
  else
    ({ restartLockHeld := false, scopeGen := st.scopeGen + 1,
       smuxSession := List.replicate muxSession none,
       monitorGen := st.monitorGen + 1 },
     [.cancelScope, .sleep 2, .newScope, .resetState, .spawnTop])

/-- Client-instance state touched by `Restart` (ws.go). -/
structure ClientState where
  restartLockHeld : Bool
  scopeGen : Nat
  controlChannel : Option Nat
  monitorGen : Nat
deriving Repr, DecidableEq

/-- Embedding of the client `Restart` (ws.go): same try-lock gate; the
re-initialised state nulls the control channel and renews the monitor,
then spawns `ChannelDialer`. -/
def clientRestart (st : ClientState) : ClientState × List RestartAct :=
  if st.restartLockHeld then (st, [])
  else
    ({ restartLockHeld := false, scopeGen := st.scopeGen + 1,
       controlChannel := none, monitorGen := st.monitorGen + 1 },
     [.cancelScope, .sleep 2, .newScope, .resetState, .spawnTop])

/-! ## Theorems -/

/-- C9: `applyDefaults` maps every degenerate configuration to its
documented default before the core sees it: a non-positive `MuxSession`
becomes 1 and an empty `Token` becomes `"sahmadiut"`, on both the server
and the client halves of the config. -/
theorem applyDefaults_spec (cfg : Config) :
    (cfg.Server.MuxSession ≤ 0 → (applyDefaults cfg).Server.MuxSession = 1)
  ∧ (cfg.Client.MuxSession ≤ 0 → (applyDefaults cfg).Client.MuxSession = 1)
  ∧ (cfg.Server.Token = "" → (applyDefaults cfg).Server.Token = "sahmadiut")
  ∧ (cfg.Client.Token = "" → (applyDefaults cfg).Client.Token = "sahmadiut") := by
  refine ⟨fun h => ?_, fun h => ?_, fun h => ?_, fun h => ?_⟩ <;>
    simp [applyDefaults, defaultMuxSession, defaultToken, h]

/-- A fully degenerate configuration used to witness `applyDefaults_spec`. -/
def degenerateCfg : Config :=
  { Server :=
    { Transport := "", Token := "", ChannelSize := 0, LogLevel := "", RetryInterval := 0,
      ConnectionPool := 0, MuxSession := 0, Keepalive := 0, MuxVersion := 0, MaxFrameSize := 0,
      MaxReceiveBuffer := 0, MaxStreamBuffer := 0, SnifferLog := "", Heartbeat := 0 }
    Client :=
    { Transport := "", Token := "", ChannelSize := 0, LogLevel := "", RetryInterval := 0,
      ConnectionPool := 0, MuxSession := 0, Keepalive := 0, MuxVersion := 0, MaxFrameSize := 0,
      MaxReceiveBuffer := 0, MaxStreamBuffer := 0, SnifferLog := "", Heartbeat := 0 } }

/-- Witness for `applyDefaults_spec` at the all-degenerate config. -/
theorem applyDefaults_spec_witness :
    (applyDefaults degenerateCfg).Server.MuxSession = 1
  ∧ (applyDefaults degenerateCfg).Client.MuxSession = 1
  ∧ (applyDefaults degenerateCfg).Server.Token = "sahmadiut"
  ∧ (applyDefaults degenerateCfg).Client.Token = "sahmadiut" :=
  ⟨(applyDefaults_spec degenerateCfg).1 (by decide),
   (applyDefaults_spec degenerateCfg).2.1 (by decide),
   (applyDefaults_spec degenerateCfg).2.2.1 rfl,
   (applyDefaults_spec degenerateCfg).2.2.2 rfl⟩

/-- Unfolding lemma for one loop iteration of `channelListenerRun`. -/
theorem channelListenerRun_cons (r : ChannelRead) (l : List ChannelRead) :
    channelListenerRun (r :: l) =
      if (channelListenerStep r).keepLooping then
        { dials := (channelListenerStep r).dials + (channelListenerRun l).dials,
          restarts := (channelListenerStep r).restarts + (channelListenerRun l).restarts,
          keepLooping := (channelListenerRun l).keepLooping }
      else channelListenerStep r := rfl

/-- C1: in `channelListener`, the message `"1"` spawns exactly one tunnel
dial and keeps the loop alive; `"0"` is a heartbeat with no reply and no
other effect; a read error or any other message triggers exactly one
`Restart()` and terminates the loop; over a whole trace of accepted
signals followed by one faulty read, exactly one restart happens. -/
theorem channelListener_dispatch :
    (channelListenerStep (.msg "1") = { dials := 1, restarts := 0, keepLooping := true })
  ∧ (channelListenerStep (.msg "0") = { dials := 0, restarts := 0, keepLooping := true })
  ∧ (channelListenerStep .readErr = { dials := 0, restarts := 1, keepLooping := false })
  ∧ (∀ m : String, m ≠ "1" → m ≠ "0" →
      channelListenerStep (.msg m) = { dials := 0, restarts := 1, keepLooping := false })
  ∧ (∀ r : ChannelRead, (channelListenerStep r).restarts = 0 →
      r = .msg "1" ∨ r = .msg "0")
  ∧ (∀ ms : List ChannelRead, (∀ r ∈ ms, r = .msg "1" ∨ r = .msg "0") →
      ∀ bad : ChannelRead, (channelListenerStep bad).keepLooping = false →
      channelListenerRun (ms ++ [bad]) =
        { dials := ms.count (ChannelRead.msg "1") + (channelListenerStep bad).dials,
          restarts := (channelListenerStep bad).restarts, keepLooping := false }) := by
  refine ⟨rfl, rfl, rfl, fun m h1 h0 => ?_, fun r hr => ?_, fun ms hms bad hbad => ?_⟩
  · simp [channelListenerStep, chanSignal, heartbeatSig, h1, h0]
  · match r with
    | .readErr => simp [channelListenerStep] at hr
    | .msg m =>
      by_cases h1 : m = "1"
      · exact Or.inl (by rw [h1])
      · by_cases h0 : m = "0"
        · exact Or.inr (by rw [h0])
        · simp [channelListenerStep, chanSignal, heartbeatSig, h1, h0] at hr
  · induction ms with
    | nil =>
      rw [List.nil_append, channelListenerRun_cons, if_neg (by simp [hbad])]
      cases hstep : channelListenerStep bad with
      | mk d re k =>
        rw [hstep] at hbad
        simp_all
    | cons r rest ih =>
      have hr := hms r (List.mem_cons_self r rest)
      have hrest : ∀ x ∈ rest, x = ChannelRead.msg "1" ∨ x = ChannelRead.msg "0" :=
        fun x hx => hms x (List.mem_cons_of_mem r hx)
      have ihr := ih hrest
      rw [List.cons_append, channelListenerRun_cons]
      rcases hr with hr | hr <;> subst hr
      · rw [if_pos (by decide), ihr]
        simp [channelListenerStep, chanSignal, heartbeatSig, List.count_cons,
          ListenerEffect.mk.injEq]
        all_goals omega
      · rw [if_pos (by decide), ihr]
        simp [channelListenerStep, chanSignal, heartbeatSig, List.count_cons,
          ListenerEffect.mk.injEq]

/-- Witness for `channelListener_dispatch`: the unknown message `"2"`
restarts and stops; the trace `"1", "0", "2"` yields one dial and one
restart. -/
theorem channelListener_dispatch_witness :
    channelListenerStep (.msg "2") = { dials := 0, restarts := 1, keepLooping := false }
  ∧ channelListenerRun [.msg "1", .msg "0", .msg "2"] =
      { dials := 1, restarts := 1, keepLooping := false } := by
  constructor
  · exact channelListener_dispatch.2.2.2.1 "2" (by decide) (by decide)
  · have h := channelListener_dispatch.2.2.2.2.2 [.msg "1", .msg "0"]
      (by intro r hr; fin_cases hr <;> simp) (.msg "2") (by decide)
    simpa using h

/-- C2: in `handleMUXSession`, the slot index is the value of
`rand.Intn(MuxSession)` — any index in `[0, MuxSession)`, where the pool
has length `MuxSession` — and: a nil slot, a closed slot, or an
`OpenStream` failure closes the incoming connection, triggers a restart
and stops the dispatcher; a failure of only the 2-byte port-header write
closes the incoming connection and continues without restarting. -/
theorem handleMUXDispatch_spec (pool : List (Option MuxSlot)) (idx remotePort : Nat)
    (_hidx : idx < pool.length) :
    (pool.getD idx none = none →
      handleMUXDispatch pool idx remotePort =
        { incomingClosed := true, restarted := true, dispatcherStops := true, header := none })
  ∧ (∀ slot, pool.getD idx none = some slot → slot.closed = true →
      handleMUXDispatch pool idx remotePort =
        { incomingClosed := true, restarted := true, dispatcherStops := true, header := none })
  ∧ (∀ slot, pool.getD idx none = some slot → slot.closed = false → slot.openStreamOk = false →
      handleMUXDispatch pool idx remotePort =
        { incomingClosed := true, restarted := true, dispatcherStops := true, header := none })
  ∧ (∀ slot, pool.getD idx none = some slot → slot.closed = false → slot.openStreamOk = true →
      slot.sendPortOk = false →
      handleMUXDispatch pool idx remotePort =
        { incomingClosed := true, restarted := false, dispatcherStops := false, header := none })
  ∧ (∀ slot, pool.getD idx none = some slot → slot.closed = false → slot.openStreamOk = true →
      slot.sendPortOk = true →
      handleMUXDispatch pool idx remotePort =
        { incomingClosed := false, restarted := false, dispatcherStops := false,
          header := some (muxPortHeader remotePort) }) := by
  refine ⟨fun h => ?_, fun slot h hc => ?_, fun slot h hc ho => ?_,
    fun slot h hc ho hs => ?_, fun slot h hc ho hs => ?_⟩ <;>
    (simp only [handleMUXDispatch]; rw [h])
  · simp [hc]
  · simp [hc, ho]
  · simp [hc, ho, hs]
  · simp [hc, ho, hs]

/-- Witness for `handleMUXDispatch_spec`: a one-slot pool whose slot is
nil leads to close-restart-stop. -/
theorem handleMUXDispatch_spec_witness :
    handleMUXDispatch [none] 0 8080 =
      { incomingClosed := true, restarted := true, dispatcherStops := true, header := none } :=
  (handleMUXDispatch_spec [none] 0 8080 (by decide)).1 rfl

/-- C8: `Restart()` is guarded by a non-blocking try-lock: a call while a
restart holds the lock changes no state and performs no action; otherwise
it performs, in order, cancel scope, sleep 2 s, new scope, reset of the
session pool (server: all-nil pool of length `MuxSession`) or control
channel (client) and the usage monitor, and spawns the top-level
listener/dialer. -/
theorem restartGate_spec (muxSession : Nat) (sst : ServerState) (cst : ClientState) :
    (sst.restartLockHeld = true →
      serverRestart muxSession sst = (sst, []))
  ∧ (sst.restartLockHeld = false →
      (serverRestart muxSession sst).2 =
        [.cancelScope, .sleep 2, .newScope, .resetState, .spawnTop]
      ∧ (serverRestart muxSession sst).1.scopeGen = sst.scopeGen + 1
      ∧ (serverRestart muxSession sst).1.smuxSession.length = muxSession
      ∧ (∀ slot ∈ (serverRestart muxSession sst).1.smuxSession, slot = none)
      ∧ (serverRestart muxSession sst).1.monitorGen = sst.monitorGen + 1)
  ∧ (cst.restartLockHeld = true →
      clientRestart cst = (cst, []))
  ∧ (cst.restartLockHeld = false →
      (clientRestart cst).2 =
        [.cancelScope, .sleep 2, .newScope, .resetState, .spawnTop]
      ∧ (clientRestart cst).1.scopeGen = cst.scopeGen + 1
      ∧ (clientRestart cst).1.controlChannel = none
      ∧ (clientRestart cst).1.monitorGen = cst.monitorGen + 1) := by
  refine ⟨fun h => ?_, fun h => ?_, fun h => ?_, fun h => ?_⟩ <;>
    simp_all [serverRestart, clientRestart, List.eq_replicate_iff]

/-- Witness for `restartGate_spec`: a busy server instance is untouched
and an idle client instance performs the full restart sequence. -/
theorem restartGate_spec_witness :
    serverRestart 2
      { restartLockHeld := true, scopeGen := 0, smuxSession := [], monitorGen := 0 } =
      ({ restartLockHeld := true, scopeGen := 0, smuxSession := [], monitorGen := 0 }, [])
  ∧ (clientRestart
      { restartLockHeld := false, scopeGen := 3, controlChannel := some 7, monitorGen := 1 }).2 =
      [.cancelScope, .sleep 2, .newScope, .resetState, .spawnTop] :=
  ⟨(restartGate_spec 2
      { restartLockHeld := true, scopeGen := 0, smuxSession := [], monitorGen := 0 }
      { restartLockHeld := false, scopeGen := 3, controlChannel := some 7, monitorGen := 1 }).1 rfl,
   ((restartGate_spec 2
      { restartLockHeld := true, scopeGen := 0, smuxSession := [], monitorGen := 0 }
      { restartLockHeld := false, scopeGen := 3, controlChannel := some 7, monitorGen := 1 }).2.2.2 rfl).1⟩

/-- C4 counterexample: the claim states a 2-second connection timeout for
the WS client's TCP dialer, but `NewWSClient` initialises the transport's
`timeout` field — the `Timeout` the `net.Dialer` in `tcpDialer` uses — to
5 seconds. -/
theorem wsDialTimeout_cex :
    (wsTcpDialerOpts 20).timeoutSecs = 5 ∧ (wsTcpDialerOpts 20).timeoutSecs ≠ 2 := by
  decide

/-- C4 amended: on a new tunnel stream carrying port `p`, the WS client
resolves the local target to `Forwarder[p]` when that key exists and to
`"127.0.0.1:<p>"` otherwise, and dials it over TCP with the configured
`KeepAlive` and a connection timeout of 5 seconds (the `timeout` field of
`NewWSClient`); on dial failure the tunnel stream is closed silently with
no restart. -/
theorem wsLocalDialer_spec (forwarder : List (Nat × String)) (port ka : Nat)
    (dialOk : Bool) :
    (∀ a, forwarder.lookup port = some a →
      (localDialerRun forwarder port dialOk).target = a)
  ∧ (forwarder.lookup port = none →
      (localDialerRun forwarder port dialOk).target = "127.0.0.1:" ++ toString port)
  ∧ wsTcpDialerOpts ka = { timeoutSecs := 5, keepAliveSecs := ka }
  ∧ (dialOk = false →
      (localDialerRun forwarder port dialOk).tunnelClosed = true
      ∧ (localDialerRun forwarder port dialOk).restarted = false
      ∧ (localDialerRun forwarder port dialOk).relayStarted = false) := by
  refine ⟨?_, ?_, rfl, ?_⟩
  · intro a h
    cases dialOk <;> simp [localDialerRun, resolveLocalAddr, h]
  · intro h
    cases dialOk <;> simp [localDialerRun, resolveLocalAddr, h]
  · intro h
    subst h
    simp [localDialerRun]

/-- Witness for `wsLocalDialer_spec`: a mapped port resolves through the
forwarder, an unmapped one to loopback, and a failed dial closes the
tunnel without restarting. -/
theorem wsLocalDialer_spec_witness :
    (localDialerRun [(8080, "127.0.0.1:22")] 8080 false).target = "127.0.0.1:22"
  ∧ (localDialerRun [] 9000 false).target = "127.0.0.1:" ++ toString 9000
  ∧ ((localDialerRun [] 9000 false).tunnelClosed = true
     ∧ (localDialerRun [] 9000 false).restarted = false
     ∧ (localDialerRun [] 9000 false).relayStarted = false) :=
  ⟨(wsLocalDialer_spec [(8080, "127.0.0.1:22")] 8080 20 false).1 "127.0.0.1:22" (by decide),
   (wsLocalDialer_spec [] 9000 20 false).2.1 rfl,
   (wsLocalDialer_spec [] 9000 20 false).2.2.2 rfl⟩

/-- Helper: `acceptStreamRun` either never installs (trace exhausted) or
installs an authenticated session carrying the role of `smux.Client`. -/
theorem acceptStreamRun_cases (cfgToken : String) (tr : List AcceptEvent) :
    acceptStreamRun cfgToken tr = none ∨
    acceptStreamRun cfgToken tr =
      some { role := SmuxRole.client, authenticated := true } := by
  induction tr with
  | nil => exact Or.inl rfl
  | cons e rest ih =>
    by_cases h : (authStep cfgToken e).installed
    · right
      simp [acceptStreamRun, h, acceptStreamSessionRole]
    · simpa [acceptStreamRun, h] using ih

/-- C5 counterexample: on a successful token exchange the session the
server installs was built by `smux.Client` — a client-side smux session,
not a server-side one as the claim states. -/
theorem tunnelListenerRole_cex :
    tunnelListenerSetup "sahmadiut" [[AcceptEvent.token "sahmadiut" true]] =
      [some { role := SmuxRole.client, authenticated := true }]
  ∧ SmuxRole.client ≠ SmuxRole.server := by
  exact ⟨by decide, by decide⟩

/-- C5 amended: `TunnelListener` spawns one `acceptStreamConn` goroutine
per pool slot `id = 0 .. MuxSession-1`; each accepts tunnel sockets until
one session authenticates (an install happens only on the configured
token with a successful acknowledgment), wraps each accepted socket via
`smux.Client` (a client-side SMUX session), and after all goroutines have
installed, every slot holds an authenticated session. -/
theorem tunnelListenerSetup_spec (cfgToken : String) (muxSession : Nat)
    (traces : List (List AcceptEvent))
    (hlen : traces.length = muxSession)
    (hsucc : ∀ tr ∈ traces, acceptStreamRun cfgToken tr ≠ none) :
    (tunnelListenerSetup cfgToken traces).length = muxSession
  ∧ (∀ slot ∈ tunnelListenerSetup cfgToken traces,
      slot = some { role := SmuxRole.client, authenticated := true })
  ∧ (∀ e : AcceptEvent, (authStep cfgToken e).installed = true →
      e = AcceptEvent.token cfgToken true) := by
  refine ⟨by simp [tunnelListenerSetup, hlen], ?_, ?_⟩
  · intro slot hslot
    rw [tunnelListenerSetup] at hslot
    obtain ⟨tr, htr, rfl⟩ := List.mem_map.1 hslot
    rcases acceptStreamRun_cases cfgToken tr with h | h
    · exact absurd h (hsucc tr htr)
    · exact h
  · intro e he
    match e with
    | .acceptErr => simp [authStep] at he
    | .nonTCP => simp [authStep] at he
    | .smuxErr => simp [authStep] at he
    | .acceptStreamErr => simp [authStep] at he
    | .tokenRecvErr => simp [authStep] at he
    | .token t sendOk =>
      by_cases ht : t = cfgToken
      · cases sendOk
        · simp [authStep, ht] at he
        · rw [ht]
      · simp [authStep, ht] at he

/-- Witness for `tunnelListenerSetup_spec`: two goroutines, the first
seeing one failed token before the good one; both slots end up holding an
authenticated client-side session. -/
theorem tunnelListenerSetup_spec_witness :
    (tunnelListenerSetup "sahmadiut"
      [[AcceptEvent.token "wrong" true, AcceptEvent.token "sahmadiut" true],
       [AcceptEvent.token "sahmadiut" true]]).length = 2
  ∧ ∀ slot ∈ tunnelListenerSetup "sahmadiut"
      [[AcceptEvent.token "wrong" true, AcceptEvent.token "sahmadiut" true],
       [AcceptEvent.token "sahmadiut" true]],
      slot = some { role := SmuxRole.client, authenticated := true } := by
  have h := tunnelListenerSetup_spec "sahmadiut" 2
    [[AcceptEvent.token "wrong" true, AcceptEvent.token "sahmadiut" true],
     [AcceptEvent.token "sahmadiut" true]]
    (by decide) (by decide)
  exact ⟨h.1, h.2.1⟩

/-- C6: in `acceptStreamConn`, a received token equal to `config.Token`
is answered with the length-prefixed string `"ok"` and — when that write
succeeds — the session is installed into the pool slot; a different token
is answered with `"error"`, the session is closed without installing (the
slot stays unchanged) and the goroutine sleeps 2 seconds before the next
accept on the same tunnel listener. -/
theorem acceptStreamAuth_spec (cfgToken t : String) (sendOk : Bool)
    (prev : Option PoolSession) :
    (t = cfgToken → (authStep cfgToken (.token t sendOk)).response = some "ok")
  ∧ (t = cfgToken → sendOk = true →
      (authStep cfgToken (.token t sendOk)).installed = true
      ∧ slotAfter cfgToken (.token t sendOk) prev =
          some { role := SmuxRole.client, authenticated := true }
      ∧ (authStep cfgToken (.token t sendOk)).sleepSecs = 0)
  ∧ (t = cfgToken → sendOk = false →
      (authStep cfgToken (.token t sendOk)).installed = false
      ∧ (authStep cfgToken (.token t sendOk)).sessionClosed = true
      ∧ slotAfter cfgToken (.token t sendOk) prev = prev)
  ∧ (t ≠ cfgToken →
      authStep cfgToken (.token t sendOk) =
        { response := some "error", installed := false, sessionClosed := true, sleepSecs := 2 }
      ∧ slotAfter cfgToken (.token t sendOk) prev = prev) := by
  refine ⟨?_, ?_, ?_, ?_⟩
  · intro h
    cases sendOk <;> simp [authStep, h]
  · intro h hs
    subst h
    subst hs
    simp [authStep, slotAfter, acceptStreamSessionRole]
  · intro h hs
    subst h
    subst hs
    simp [authStep, slotAfter]
  · intro h
    exact ⟨by simp [authStep, h], by simp [slotAfter, authStep, h]⟩

/-- Witness for `acceptStreamAuth_spec`: the configured token installs,
the token `"wrong"` is rejected, leaves the slot empty and sleeps 2 s. -/
theorem acceptStreamAuth_spec_witness :
    ((authStep "sahmadiut" (.token "sahmadiut" true)).installed = true
     ∧ slotAfter "sahmadiut" (.token "sahmadiut" true) none =
         some { role := SmuxRole.client, authenticated := true }
     ∧ (authStep "sahmadiut" (.token "sahmadiut" true)).sleepSecs = 0)
  ∧ (authStep "sahmadiut" (.token "wrong" true) =
      { response := some "error", installed := false, sessionClosed := true, sleepSecs := 2 }
     ∧ slotAfter "sahmadiut" (.token "wrong" true) none = none) :=
  ⟨(acceptStreamAuth_spec "sahmadiut" "sahmadiut" true none).2.1 rfl rfl,
   (acceptStreamAuth_spec "sahmadiut" "wrong" true none).2.2.2 (by decide)⟩

/-- Helper: folding a burst of offers over a queue with enough room
enqueues everything in FIFO order and drops nothing. -/
theorem offerAll_fold (channelSize : Nat) (conns q drops : List Nat)
    (h : q.length + conns.length ≤ channelSize) :
    conns.foldl
      (fun acc conn =>
        let r := offerConn channelSize acc.1 conn
        if r.2 then (r.1, acc.2) else (r.1, acc.2 ++ [conn]))
      (q, drops) = (q ++ conns, drops) := by
  induction conns generalizing q with
  | nil => simp
  | cons c rest ih =>
    have hq : q.length < channelSize := by
      simp only [List.length_cons] at h
      omega
    simp only [List.foldl_cons]
    rw [show (let r := offerConn channelSize q c
        if r.2 then (r.1, drops) else (r.1, drops ++ [c])) = (q ++ [c], drops) by
      simp [offerConn, hq]]
    rw [ih (q ++ [c]) (by simp at h ⊢; omega)]
    simp

/-- C7: the accept queue of a local listener is a bounded FIFO of
capacity `ChannelSize` with enqueue timeout `muxServerTimeoutSecs = 2`
seconds; with `ChannelSize` connections queued and none drained, the next
connection is closed and discarded after the timeout while the queued
connections are unaffected. -/
theorem acceptQueueOverflow_spec (channelSize : Nat) (conns : List Nat) (extra : Nat)
    (hlen : conns.length = channelSize) :
    muxServerTimeoutSecs = 2
  ∧ offerAll channelSize conns = (conns, [])
  ∧ offerAll channelSize (conns ++ [extra]) = (conns, [extra]) := by
  refine ⟨rfl, ?_, ?_⟩
  · rw [offerAll, offerAll_fold channelSize conns [] [] (by simp [hlen])]
    simp
  · rw [offerAll, List.foldl_append, offerAll_fold channelSize conns [] [] (by simp [hlen])]
    simp [offerConn, hlen]

/-- Witness for `acceptQueueOverflow_spec` at capacity 2: the third
undrained connection is dropped, the first two stay queued. -/
theorem acceptQueueOverflow_spec_witness :
    offerAll 2 [10, 11, 12] = ([10, 11], [12]) := by
  have h := acceptQueueOverflow_spec 2 [10, 11] 12 rfl
  simpa using h.2.2

/-- Helper: the listener range the Go `for` loop walks, as an interval. -/
theorem range'_eq_Ico (a b : Nat) : List.range' a (b + 1 - a) = List.Ico a (b + 1) := rfl

/-- Helper: unfolding `portConfigEntry` after a successful regex match. -/
theorem portConfigEntry_eq (s : String) (vg : List Nat)
    (h : regexValidGroups s.data = some vg) :
    portConfigEntry s =
      if startRangeOf vg > endRangeOf vg (s.data.contains '=') then
        EntryResult.fatalRange (startRangeOf vg) (endRangeOf vg (s.data.contains '='))
      else
        EntryResult.listeners ((List.range' (startRangeOf vg)
          (endRangeOf vg (s.data.contains '=') + 1 - startRangeOf vg)).map
          (fun i => (i, (remotePortOf vg (s.data.contains '=')).getD i))) := by
  simp only [portConfigEntry, h]

/-- C3: for every port-mapping string accepted by the grammar,
`portConfigReader` spawns exactly one local listener per port `p` in
`[startRange, endRange]`, each forwarding to the entry's single remote
port when `=` is present and to `p` itself otherwise; an entry with
`startRange > endRange` is a fatal startup error. -/
theorem portConfigEntry_spec (s : String) (vg : List Nat)
    (h : regexValidGroups s.data = some vg) :
    (startRangeOf vg ≤ endRangeOf vg (s.data.contains '=') →
      ∃ l, portConfigEntry s = EntryResult.listeners l
        ∧ portConfigReader [s] = some l
        ∧ l.length = endRangeOf vg (s.data.contains '=') + 1 - startRangeOf vg
        ∧ l.map Prod.fst =
            List.Ico (startRangeOf vg) (endRangeOf vg (s.data.contains '=') + 1)
        ∧ (∀ q ∈ l, startRangeOf vg ≤ q.1 ∧ q.1 ≤ endRangeOf vg (s.data.contains '=')
            ∧ q.2 = (remotePortOf vg (s.data.contains '=')).getD q.1))
  ∧ (endRangeOf vg (s.data.contains '=') < startRangeOf vg →
      portConfigEntry s =
        EntryResult.fatalRange (startRangeOf vg) (endRangeOf vg (s.data.contains '='))) := by
  have hentry := portConfigEntry_eq s vg h
  constructor
  · intro hle
    have hnot : ¬ startRangeOf vg > endRangeOf vg (s.data.contains '=') := not_lt.2 hle
    rw [hentry, if_neg hnot]
    refine ⟨_, rfl, ?_, ?_, ?_, ?_⟩
    · simp only [portConfigReader, hentry, if_neg hnot]
      simp
    · simp [List.length_range']
    · rw [range'_eq_Ico, List.map_map]
      exact List.map_id _
    · intro q hq
      rw [range'_eq_Ico] at hq
      obtain ⟨i, hi, rfl⟩ := List.mem_map.1 hq
      obtain ⟨hi1, hi2⟩ := List.Ico.mem.1 hi
      exact ⟨hi1, by omega, rfl⟩
  · intro hlt
    rw [hentry, if_pos hlt]

/-- Witness for `portConfigEntry_spec`: `"[100:110]=80"` spawns 11
listeners all forwarding to remote port 80, and `"[100:90]"` is fatal. -/
theorem portConfigEntry_spec_witness :
    (∃ l, portConfigEntry "[100:110]=80" = EntryResult.listeners l
        ∧ portConfigReader ["[100:110]=80"] = some l
        ∧ l.length = 11
        ∧ ∀ q ∈ l, q.2 = 80)
  ∧ portConfigEntry "[100:90]" = EntryResult.fatalRange 100 90 := by
  constructor
  · obtain ⟨l, h1, h2, h3, _, h5⟩ :=
      (portConfigEntry_spec "[100:110]=80" [100, 110, 80] (by decide)).1 (by decide)
    exact ⟨l, h1, h2, h3, fun q hq => (h5 q hq).2.2⟩
  · exact (portConfigEntry_spec "[100:90]" [100, 90] (by decide)).2 (by decide)

/-- C10: a port-mapping entry whose remote-port integer is at least 65536
is accepted by the parser with no range check on the port; the 2-byte
header written to the tunnel stream carries that value reduced modulo
2^16 (`uint16` truncation), so the port the client reads — and dials —
differs from the configured one. -/
theorem portHeaderTruncation_spec (s : String) (vg : List Nat)
    (h : regexValidGroups s.data = some vg) (he : s.data.contains '=' = true)
    (hr : 65536 ≤ vg.getLastD 0)
    (hle : startRangeOf vg ≤ endRangeOf vg (s.data.contains '=')) :
    (∃ l, portConfigEntry s = EntryResult.listeners l ∧ l ≠ []
        ∧ ∀ q ∈ l, q.2 = vg.getLastD 0)
  ∧ clientPortOf (vg.getLastD 0) = vg.getLastD 0 % 65536
  ∧ clientPortOf (vg.getLastD 0) ≠ vg.getLastD 0 := by
  have htrunc : clientPortOf (vg.getLastD 0) = vg.getLastD 0 % 65536 := by
    simp only [clientPortOf, bigEndianUint16, muxPortHeader, sendBinaryIntBytes,
      uint16OfNat, List.getD_cons_zero, List.getD_cons_succ]
    omega
  refine ⟨?_, htrunc, ?_⟩
  · obtain ⟨l, h1, _, h3, _, h5⟩ := (portConfigEntry_spec s vg h).1 hle
    refine ⟨l, h1, ?_, ?_⟩
    · intro hnil
      rw [hnil, List.length_nil] at h3
      omega
    · intro q hq
      have := (h5 q hq).2.2
      rw [he] at this
      simpa [remotePortOf] using this
  · rw [htrunc]
    intro heq
    omega

/-- Witness for `portHeaderTruncation_spec`: the entry `"100=70000"` is
accepted, and the client reads port 4464 = 70000 mod 2^16 ≠ 70000. -/
theorem portHeaderTruncation_spec_witness :
    (∃ l, portConfigEntry "100=70000" = EntryResult.listeners l ∧ l ≠ []
        ∧ ∀ q ∈ l, q.2 = 70000)
  ∧ clientPortOf 70000 = 4464
  ∧ clientPortOf 70000 ≠ 70000 :=
  portHeaderTruncation_spec "100=70000" [100, 70000] (by decide) (by decide)
    (by decide) (by decide)

end Backhaul






